import Mathlib

/-!
Shallow embedding of `src/wxtest.py`: a Flask web service wrapping a
`CarbonEstimator` class that computes scope-1 (fuel combustion) and
scope-2 (purchased electricity) carbon emissions from two fixed
emission-factor tables.

JSON / Python values are modelled by `PyVal`, with numbers as exact
rationals (Python floats are idealised as `ℚ`).  Python dictionaries are
modelled as association lists in insertion order, which is the order
`dict.items()` iterates in.
-/

/-- A Python/JSON value as it can appear in a request body. -/
inductive PyVal : Type where
  | null : PyVal
  | bool : Bool → PyVal
  | num : ℚ → PyVal
  | str : String → PyVal
  | list : List PyVal → PyVal
  | dict : List (String × PyVal) → PyVal

/-- Python `is None` test. -/
def PyVal.isNull : PyVal → Bool
  | .null => true
  | _ => false

/-- Python truthiness (`bool(v)`): `None`, `False`, `0`, `""`, `[]`, `{ }`
are falsy, everything else is truthy. -/
def truthy : PyVal → Bool
  | .null => false
  | .bool b => b
  | .num q => q != 0
  | .str s => s != ""
  | .list xs => !xs.isEmpty
  | .dict entries => !entries.isEmpty

/-- Association-list lookup, the model of Python dict `d[k]` / `k in d` /
`d.get(k)` (each key occurs at most once in a dict, so the first match is
the only one). -/
def lookupKV {α : Type} (k : String) : List (String × α) → Option α
  | [] => none
  | (k1, v) :: rest => if k1 = k then some v else lookupKV k rest

/-- Numeric value of a list of decimal digit characters. -/
def digitsVal (ds : List Char) : ℕ :=
  ds.foldl (fun a c => a * 10 + (c.toNat - 48)) 0

/-- `10 ^ n` as a rational. -/
def pow10 (n : ℕ) : ℚ := (10 : ℚ) ^ n

/-- Exponent suffix of a Python float string: optional sign then at least
one digit, consuming the whole remainder. -/
def floatExp (sgn mant : ℚ) (cs : List Char) : Option ℚ :=
  let p : Bool × List Char :=
    match cs with
    | '+' :: rest => (true, rest)
    | '-' :: rest => (false, rest)
    | _ => (true, cs)
  let d : List Char × List Char := p.2.span Char.isDigit
  if d.1.isEmpty || !d.2.isEmpty then none
  else some (sgn * mant * (if p.1 then pow10 (digitsVal d.1) else 1 / pow10 (digitsVal d.1)))

/-- Core of Python `float(str)` on the already-trimmed character list:
optional sign, integer digits, optional fractional part, optional
exponent.  (The `inf` / `nan` spellings and digit underscores accepted by
Python are not modelled; no claim exercises them.) -/
def floatCore (cs : List Char) : Option ℚ :=
  let p : ℚ × List Char :=
    match cs with
    | '+' :: rest => (1, rest)
    | '-' :: rest => (-1, rest)
    | _ => (1, cs)
  let ip : List Char × List Char := p.2.span Char.isDigit
  let fp : List Char × List Char :=
    match ip.2 with
    | '.' :: rest => rest.span Char.isDigit
    | _ => ([], ip.2)
  if ip.1.isEmpty && fp.1.isEmpty then none
  else
    let mant : ℚ := (digitsVal ip.1 : ℚ) + (digitsVal fp.1 : ℚ) / pow10 fp.1.length
    match fp.2 with
    | [] => some (p.1 * mant)
    | 'e' :: rest => floatExp p.1 mant rest
    | 'E' :: rest => floatExp p.1 mant rest
    | _ => none

/-- Python `float(s)` for a string argument: surrounding whitespace is
stripped, then the decimal form is parsed; `none` models `ValueError`. -/
def strToFloat (s : String) : Option ℚ := floatCore s.trim.toList

/-- Python `float(v)`: numbers and booleans convert, numeric strings are
parsed, everything else (`None`, lists, dicts) raises
`TypeError`/`ValueError`, modelled as `none`. -/
def PyVal.toFloat : PyVal → Option ℚ
  | .num q => some q
  | .bool b => some (if b then 1 else 0)
  | .str s => strToFloat s
  | _ => none

/-- Round-half-to-even to the nearest integer, the rounding Python's
built-in `round` uses. -/
def roundHalfEven (x : ℚ) : ℤ :=
  if x - (⌊x⌋ : ℚ) < 1/2 then ⌊x⌋
  else if (1 : ℚ)/2 < x - (⌊x⌋ : ℚ) then ⌊x⌋ + 1
  else if ⌊x⌋ % 2 = 0 then ⌊x⌋ else ⌊x⌋ + 1

/-- Python `round(x, 4)` on the idealised rational value. -/
def round4 (x : ℚ) : ℚ := (roundHalfEven (x * 10000) : ℚ) / 10000

/-- The estimator object: its two instance attributes, the scope-1 fuel
factor table and the scope-2 grid factor table. -/
structure CarbonEstimator : Type where
  EF_SCOPE1 : List (String × ℚ)
  EF_GRID : List (String × ℚ)

/-- `CarbonEstimator.__init__`: loads the two emission-factor tables. -/
def CarbonEstimator.init : CarbonEstimator :=
  ⟨[("gas", 21.62), ("diesel", 3.096), ("gasoline", 2.925), ("coal", 1.900)],
   [("North", 0.5921), ("Northeast", 0.5594), ("East", 0.5703),
    ("Central", 0.4233), ("Northwest", 0.4908), ("South", 0.3854),
    ("National_Avg", 0.5386)]⟩

/-- The loop of `calculate_scope1_emissions`: for each
`(fuel_type, consumption)` item, if `fuel_type in self.EF_SCOPE1 and
consumption is not None`, try `e_scope1 += float(consumption) *
self.EF_SCOPE1[fuel_type]`, skipping the item on
`ValueError`/`TypeError`.  The estimator state is returned unchanged at
the end, reflecting that the loop body contains no assignment to
`self`. -/
def scope1Loop (st : CarbonEstimator) (acc : ℚ) :
    List (String × PyVal) → ℚ × CarbonEstimator
  | [] => (acc, st)
  | (fuel_type, consumption) :: rest =>
    if (lookupKV fuel_type st.EF_SCOPE1).isSome && !consumption.isNull then
      match lookupKV fuel_type st.EF_SCOPE1, consumption.toFloat with
      | some ef, some q => scope1Loop st (acc + q * ef) rest
      | _, _ => scope1Loop st acc rest
    else scope1Loop st acc rest

/-- `CarbonEstimator.calculate_scope1_emissions`, with the estimator
state threaded explicitly. -/
def calculate_scope1_emissionsS (self : CarbonEstimator)
    (fuel_data : List (String × PyVal)) : ℚ × CarbonEstimator :=
  scope1Loop self 0 fuel_data

/-- Whether a Python value is hashable: JSON-representable scalars
(`None`, booleans, numbers, strings) are, lists and dicts are not. -/
def PyVal.hashable : PyVal → Bool
  | .list _ => false
  | .dict _ => false
  | _ => true

/-- The `str(e)` of the `TypeError` raised by hashing a list or a dict
(Python renders the type name in quotes; the quotes are elided here). -/
def unhashableTypeMsg : PyVal → String
  | .list _ => "unhashable type: list"
  | .dict _ => "unhashable type: dict"
  | _ => ""

/-- Python membership test `region in self.EF_GRID` for an arbitrary
value: hashing an unhashable operand (a list or a dict) raises
`TypeError`; a hashable value is a member exactly when it is a string
equal to one of the (string) keys. -/
def isGridKey (tbl : List (String × ℚ)) : PyVal → Except String Bool
  | .str s => Except.ok (lookupKV s tbl).isSome
  | .list xs => Except.error (unhashableTypeMsg (PyVal.list xs))
  | .dict entries => Except.error (unhashableTypeMsg (PyVal.dict entries))
  | _ => Except.ok false

/-- `self.EF_GRID[region]` after the membership guard. -/
def gridFactorOf (tbl : List (String × ℚ)) : PyVal → Option ℚ
  | .str s => lookupKV s tbl
  | _ => none

/-- `CarbonEstimator.calculate_scope2_emissions`:
`if not consumption_kwh or not region or region not in self.EF_GRID:
return 0.0` — the two truthiness disjuncts short-circuit, and only then
is the membership test evaluated, so a truthy unhashable `region` makes
it raise `TypeError`, which propagates (the `try` wraps only the `float`
conversion).  Otherwise kWh is converted to MWh (divide by 1000) and
multiplied by the region's grid factor, with 0 returned if the `float`
conversion raises. -/
def calculate_scope2_emissionsS (self : CarbonEstimator)
    (electricity_data : List (String × PyVal)) : Except String ℚ × CarbonEstimator :=
  let consumption_kwh := (lookupKV "consumption_kwh" electricity_data).getD PyVal.null
  let region := (lookupKV "region" electricity_data).getD PyVal.null
  if !truthy consumption_kwh || !truthy region then (Except.ok 0, self)
  else
    match isGridKey self.EF_GRID region with
    | Except.error e => (Except.error e, self)
    | Except.ok b =>
      if !b then (Except.ok 0, self)
      else
        match consumption_kwh.toFloat with
        | none => (Except.ok 0, self)
        | some q =>
          let consumption_mwh := q / 1000
          let ef_grid := (gridFactorOf self.EF_GRID region).getD 0
          (Except.ok (consumption_mwh * ef_grid), self)

/-- The dictionary returned by `estimate_total_emissions`. -/
structure EstimationResult : Type where
  total_emissions : ℚ
  scope1_emissions : ℚ
  scope2_emissions : ℚ
deriving DecidableEq

/-- `CarbonEstimator.estimate_total_emissions`: scope 1 plus scope 2,
each of the three fields rounded to 4 decimal places; an exception
raised by the scope-2 calculation propagates. -/
def estimate_total_emissionsS (self : CarbonEstimator)
    (fuel_data electricity_data : List (String × PyVal)) :
    Except String EstimationResult × CarbonEstimator :=
  let s1 := calculate_scope1_emissionsS self fuel_data
  let s2 := calculate_scope2_emissionsS s1.2 electricity_data
  match s2.1 with
  | Except.error e => (Except.error e, s2.2)
  | Except.ok v2 =>
    let e_total := s1.1 + v2
    (Except.ok ⟨round4 e_total, round4 s1.1, round4 v2⟩, s2.2)

/-- View of `calculate_scope1_emissions` on the module-level `estimator`
instance. -/
def calculate_scope1_emissions (fuel_data : List (String × PyVal)) : ℚ :=
  (calculate_scope1_emissionsS CarbonEstimator.init fuel_data).1

/-- View of `calculate_scope2_emissions` on the module-level `estimator`
instance: the returned value, or the propagating exception. -/
def calculate_scope2_emissions (electricity_data : List (String × PyVal)) :
    Except String ℚ :=
  (calculate_scope2_emissionsS CarbonEstimator.init electricity_data).1

/-- View of `estimate_total_emissions` on the module-level `estimator`
instance: the returned dictionary, or the propagating exception. -/
def estimate_total_emissions (fuel_data electricity_data : List (String × PyVal)) :
    Except String EstimationResult :=
  (estimate_total_emissionsS CarbonEstimator.init fuel_data electricity_data).1

lemma roundHalfEven_intCast (n : ℤ) : roundHalfEven ((n : ℚ)) = n := by
  unfold roundHalfEven
  norm_num

/-- Evaluation helper: when `x * 10000` is an integer, no tie-breaking is
involved in `round4 x`. -/
lemma round4_of_intCast (x : ℚ) (n : ℤ) (h : x * 10000 = (n : ℚ)) :
    round4 x = (n : ℚ) / 10000 := by
  unfold round4
  rw [h, roundHalfEven_intCast]

/-! ### The HTTP layer: JSON bodies, Flask's `request.get_json`, and the
`/api/estimate` handler. -/

/-- JSON insignificant whitespace. -/
def jsonWs (cs : List Char) : List Char :=
  cs.dropWhile (fun c => c = ' ' || c = '\t' || c = '\n' || c = '\r')

/-- Value of a hexadecimal digit, if any. -/
def hexVal (c : Char) : Option ℕ :=
  if '0' ≤ c && c ≤ '9' then some (c.toNat - 48)
  else if 'a' ≤ c && c ≤ 'f' then some (c.toNat - 87)
  else if 'A' ≤ c && c ≤ 'F' then some (c.toNat - 70)
  else none

/-- Remainder of a JSON string literal after the opening quote: returns
the decoded string and the input after the closing quote.  Escapes follow
RFC 8259; unescaped control characters are rejected, as Python's strict
`json.loads` does. -/
def parseStrAux (acc : List Char) : List Char → Option (String × List Char)
  | [] => none
  | '"' :: rest => some (String.mk acc.reverse, rest)
  | '\\' :: '"' :: rest => parseStrAux ('"' :: acc) rest
  | '\\' :: '\\' :: rest => parseStrAux ('\\' :: acc) rest
  | '\\' :: '/' :: rest => parseStrAux ('/' :: acc) rest
  | '\\' :: 'b' :: rest => parseStrAux ('\x08' :: acc) rest
  | '\\' :: 'f' :: rest => parseStrAux ('\x0c' :: acc) rest
  | '\\' :: 'n' :: rest => parseStrAux ('\n' :: acc) rest
  | '\\' :: 'r' :: rest => parseStrAux ('\r' :: acc) rest
  | '\\' :: 't' :: rest => parseStrAux ('\t' :: acc) rest
  | '\\' :: 'u' :: h1 :: h2 :: h3 :: h4 :: rest =>
    match hexVal h1, hexVal h2, hexVal h3, hexVal h4 with
    | some a, some b, some c, some d =>
      parseStrAux (Char.ofNat (((a * 16 + b) * 16 + c) * 16 + d) :: acc) rest
    | _, _, _, _ => none
  | '\\' :: _ => none
  | c :: rest => if c.toNat < 32 then none else parseStrAux (c :: acc) rest

/-- Mantissa and exponent to a rational; `neg` is the leading minus. -/
def jsonNumVal (neg : Bool) (ip fp : List Char) (epos : Bool) (ed : List Char) : ℚ :=
  let m : ℚ := (digitsVal ip : ℚ) + (digitsVal fp : ℚ) / pow10 fp.length
  let v : ℚ := if epos then m * pow10 (digitsVal ed) else m / pow10 (digitsVal ed)
  if neg then -v else v

/-- Optional exponent part of a JSON number. -/
def parseNumExp (neg : Bool) (ip fp : List Char) :
    List Char → Option (ℚ × List Char)
  | 'e' :: rest => parseNumExpTail neg ip fp rest
  | 'E' :: rest => parseNumExpTail neg ip fp rest
  | cs => some (jsonNumVal neg ip fp true [], cs)
where
  parseNumExpTail (neg : Bool) (ip fp : List Char) (cs : List Char) :
      Option (ℚ × List Char) :=
    let p : Bool × List Char :=
      match cs with
      | '+' :: rest => (true, rest)
      | '-' :: rest => (false, rest)
      | _ => (true, cs)
    let d : List Char × List Char := p.2.span Char.isDigit
    if d.1.isEmpty then none
    else some (jsonNumVal neg ip fp p.1 d.1, d.2)

/-- JSON number: `-? int frac? exp?` with the RFC 8259 grammar (no leading
zeros, at least one digit in each part). -/
def parseNumber (cs : List Char) : Option (ℚ × List Char) :=
  let p : Bool × List Char :=
    match cs with
    | '-' :: rest => (true, rest)
    | _ => (false, cs)
  let ip : List Char × List Char :=
    match p.2 with
    | '0' :: rest => (['0'], rest)
    | _ => p.2.span Char.isDigit
  if ip.1.isEmpty then none
  else
    match ip.2 with
    | '.' :: rest =>
      let d : List Char × List Char := rest.span Char.isDigit
      if d.1.isEmpty then none else parseNumExp p.1 ip.1 d.1 d.2
    | cs2 => parseNumExp p.1 ip.1 [] cs2

/-- Python dict insertion `d[k] = v`: an existing key keeps its position
and gets the new value, a new key is appended.  This is how `json.loads`
builds objects, so a duplicated key keeps the last value. -/
def insertKV (k : String) (v : PyVal) : List (String × PyVal) → List (String × PyVal)
  | [] => [(k, v)]
  | (k1, v1) :: rest => if k1 = k then (k, v) :: rest else (k1, v1) :: insertKV k v rest

mutual

/-- A JSON value, by descending fuel (each recursive step consumes at
least one input character, so `length + 2` fuel always suffices). -/
def parseVal : ℕ → List Char → Option (PyVal × List Char)
  | 0, _ => none
  | n + 1, cs =>
    match jsonWs cs with
    | 'n' :: 'u' :: 'l' :: 'l' :: rest => some (PyVal.null, rest)
    | 't' :: 'r' :: 'u' :: 'e' :: rest => some (PyVal.bool true, rest)
    | 'f' :: 'a' :: 'l' :: 's' :: 'e' :: rest => some (PyVal.bool false, rest)
    | '"' :: rest =>
      match parseStrAux [] rest with
      | some (s, rest2) => some (PyVal.str s, rest2)
      | none => none
    | '[' :: rest =>
      (match jsonWs rest with
       | ']' :: rest2 => some (PyVal.list [], rest2)
       | cs2 => parseElems n cs2 [])
    | '{' :: rest =>
      (match jsonWs rest with
       | '}' :: rest2 => some (PyVal.dict [], rest2)
       | cs2 => parseMembers n cs2 [])
    | cs2 =>
      match parseNumber cs2 with
      | some (q, rest) => some (PyVal.num q, rest)
      | none => none

/-- Comma-separated array elements up to the closing bracket. -/
def parseElems : ℕ → List Char → List PyVal → Option (PyVal × List Char)
  | 0, _, _ => none
  | n + 1, cs, acc =>
    match parseVal n cs with
    | some (v, rest) =>
      (match jsonWs rest with
       | ',' :: rest2 => parseElems n rest2 (v :: acc)
       | ']' :: rest2 => some (PyVal.list (v :: acc).reverse, rest2)
       | _ => none)
    | none => none

/-- Comma-separated `"key": value` object members up to the closing
brace. -/
def parseMembers : ℕ → List Char → List (String × PyVal) →
    Option (PyVal × List Char)
  | 0, _, _ => none
  | n + 1, cs, acc =>
    match jsonWs cs with
    | '"' :: rest =>
      (match parseStrAux [] rest with
       | some (k, rest2) =>
         (match jsonWs rest2 with
          | ':' :: rest3 =>
            (match parseVal n rest3 with
             | some (v, rest4) =>
               (match jsonWs rest4 with
                | ',' :: rest5 => parseMembers n rest5 (insertKV k v acc)
                | '}' :: rest5 => some (PyVal.dict (insertKV k v acc), rest5)
                | _ => none)
             | none => none)
          | _ => none)
       | none => none)
    | _ => none

end

/-- `json.loads` as Flask's default JSON provider uses it on a decoded
request body: one JSON value, with only trailing whitespace after it. -/
def parseJson (s : String) : Option PyVal :=
  match parseVal (s.length + 2) s.toList with
  | some (v, rest) => if (jsonWs rest).isEmpty then some v else none
  | none => none

/-- A POST request to `/api/estimate`, assumed to carry the
`application/json` content type this API is used with; `body` is the
(decoded) request payload, `none` when no body was sent. -/
structure HttpRequest : Type where
  body : Option String

/-- Flask's `request.get_json()` on a JSON-content-type request: returns
the parsed value, and raises `BadRequest` — an `Exception` — when the
body is missing or is not well-formed JSON (`on_json_loading_failed`).
The raised exception is modelled as `Except.error` with its message. -/
def flaskGetJson (r : HttpRequest) : Except String PyVal :=
  match r.body with
  | none => Except.error "Failed to decode JSON object"
  | some s =>
    match parseJson s with
    | some v => Except.ok v
    | none => Except.error "Failed to decode JSON object"

/-- The JSON payload of `estimate_total_emissions`, as `jsonify` sees
it. -/
def resultToPyVal (res : EstimationResult) : PyVal :=
  PyVal.dict [("total_emissions", PyVal.num res.total_emissions),
              ("scope1_emissions", PyVal.num res.scope1_emissions),
              ("scope2_emissions", PyVal.num res.scope2_emissions)]

/-- The `handle_estimation` view for `POST /api/estimate`, estimator
state threaded explicitly.  Everything in the `try` block that raises —
`request.get_json()` on a bad body, `.get`/`.items` on a value that is
not a dict (`AttributeError`), or the `TypeError` propagating out of the
estimator for an unhashable region — is caught by the blanket
`except Exception` and turned into a 500 response; a parsed but falsy
body gets the 400 response; otherwise `fuel_data` and `electricity_data`
default to empty dicts and the estimator result is wrapped in a success
envelope with status 200. -/
def handle_estimationS (self : CarbonEstimator) (r : HttpRequest) :
    (ℕ × PyVal) × CarbonEstimator :=
  match flaskGetJson r with
  | Except.error e =>
    ((500, PyVal.dict [("success", PyVal.bool false),
                       ("error", PyVal.str ("服务器内部错误: " ++ e))]), self)
  | Except.ok data =>
    if !truthy data then
      ((400, PyVal.dict [("success", PyVal.bool false),
                         ("error", PyVal.str "请求体不能为空")]), self)
    else
      match data with
      | PyVal.dict entries =>
        let fuel_data := (lookupKV "fuel_data" entries).getD (PyVal.dict [])
        let electricity_data := (lookupKV "electricity_data" entries).getD (PyVal.dict [])
        (match fuel_data, electricity_data with
         | PyVal.dict fl, PyVal.dict el =>
           let res := estimate_total_emissionsS self fl el
           (match res.1 with
            | Except.ok results =>
              ((200, PyVal.dict [("success", PyVal.bool true),
                                 ("data", resultToPyVal results)]), res.2)
            | Except.error e =>
              ((500, PyVal.dict [("success", PyVal.bool false),
                                 ("error", PyVal.str ("服务器内部错误: " ++ e))]), res.2))
         | _, _ =>
           ((500, PyVal.dict [("success", PyVal.bool false),
                              ("error", PyVal.str "服务器内部错误: AttributeError")]), self))
      | _ =>
        ((500, PyVal.dict [("success", PyVal.bool false),
                           ("error", PyVal.str "服务器内部错误: AttributeError")]), self)

/-- `handle_estimation` on the module-level `estimator` instance: the
status code and JSON payload sent back. -/
def handle_estimation (r : HttpRequest) : ℕ × PyVal :=
  (handle_estimationS CarbonEstimator.init r).1

/-- Field access on a JSON object response payload. -/
def jsonField (k : String) : PyVal → Option PyVal
  | PyVal.dict entries => lookupKV k entries
  | _ => none

/-! ### Helper lemmas -/

/-- What one `(fuel_type, consumption)` item adds to the scope-1 total:
`float(consumption) * factor[fuel_type]` when the key is recognized and
the value coerces, and `0` otherwise. -/
def scope1Contribution (tbl : List (String × ℚ)) (p : String × PyVal) : ℚ :=
  match lookupKV p.1 tbl, p.2.toFloat with
  | some ef, some q => q * ef
  | _, _ => 0

lemma isNull_eq_true {c : PyVal} (h : c.isNull = true) : c = PyVal.null := by
  cases c <;> simp [PyVal.isNull] at h ⊢

lemma scope1Loop_eq (st : CarbonEstimator) (l : List (String × PyVal)) :
    ∀ acc : ℚ, scope1Loop st acc l =
      (acc + (l.map (scope1Contribution st.EF_SCOPE1)).sum, st) := by
  induction l with
  | nil => intro acc; simp [scope1Loop]
  | cons p rest ih =>
    intro acc
    obtain ⟨f, c⟩ := p
    by_cases hN : c.isNull = true
    · rw [isNull_eq_true hN]
      cases hL : lookupKV f st.EF_SCOPE1 <;>
        simp [scope1Loop, PyVal.isNull, hL, ih, scope1Contribution, PyVal.toFloat,
          add_assoc]
    · cases hL : lookupKV f st.EF_SCOPE1 with
      | none =>
        simp [scope1Loop, hL, ih, scope1Contribution]
      | some ef =>
        cases hT : c.toFloat with
        | none =>
          simp [scope1Loop, hL, hN, hT, ih, scope1Contribution]
        | some q =>
          simp [scope1Loop, hL, hN, hT, ih, scope1Contribution, add_assoc]

lemma calc1_eq_sum (fuel_data : List (String × PyVal)) :
    calculate_scope1_emissions fuel_data =
      (fuel_data.map (scope1Contribution CarbonEstimator.init.EF_SCOPE1)).sum := by
  simp [calculate_scope1_emissions, calculate_scope1_emissionsS, scope1Loop_eq]

/-! ### The claims about the scope-1 calculator -/

/-- Claim C1: for every fuel_data mapping, `calculate_scope1_emissions`
returns the sum over all entries `(f, c)` with `f` a recognized key of
the fuel factor table and `c` numerically coercible of
`float(c) * EF_SCOPE1[f]` (every other entry contributing `0`), and the
result is `0` when no entry is valid. -/
theorem claim_C1_scope1_is_sum_of_valid_contributions
    (fuel_data : List (String × PyVal)) :
    calculate_scope1_emissions fuel_data =
      (fuel_data.map (scope1Contribution CarbonEstimator.init.EF_SCOPE1)).sum ∧
    ((∀ p ∈ fuel_data, scope1Contribution CarbonEstimator.init.EF_SCOPE1 p = 0) →
      calculate_scope1_emissions fuel_data = 0) := by
  refine ⟨calc1_eq_sum fuel_data, fun hz => ?_⟩
  rw [calc1_eq_sum fuel_data]
  refine List.sum_eq_zero ?_
  intro x hx
  obtain ⟨p, hp, rfl⟩ := List.mem_map.mp hx
  exact hz p hp

/-- Witness for C1: a mapping with an unrecognized key and a null value
has no valid entry and yields zero. -/
theorem claim_C1_witness :
    (∀ p ∈ [("mars_gas", PyVal.num 3), ("diesel", PyVal.null)],
      scope1Contribution CarbonEstimator.init.EF_SCOPE1 p = 0) ∧
    calculate_scope1_emissions [("mars_gas", PyVal.num 3), ("diesel", PyVal.null)] = 0 := by
  have h : ∀ p ∈ [("mars_gas", PyVal.num 3), ("diesel", PyVal.null)],
      scope1Contribution CarbonEstimator.init.EF_SCOPE1 p = 0 := by
    intro p hp
    simp only [List.mem_cons, List.not_mem_nil, or_false] at hp
    rcases hp with rfl | rfl <;>
      simp +decide [scope1Contribution, lookupKV, CarbonEstimator.init, PyVal.toFloat]
  exact ⟨h, (claim_C1_scope1_is_sum_of_valid_contributions _).2 h⟩

/-- Claim C5: an entry with an unrecognized key, a null value, or a value
that fails numeric coercion contributes exactly 0 to the scope-1 result
and does not prevent the surrounding entries from being summed. -/
theorem claim_C5_bad_entries_are_skipped
    (l1 l2 : List (String × PyVal)) (f : String) (c : PyVal)
    (h : lookupKV f CarbonEstimator.init.EF_SCOPE1 = none ∨ c = PyVal.null ∨
      c.toFloat = none) :
    calculate_scope1_emissions (l1 ++ (f, c) :: l2) =
      calculate_scope1_emissions (l1 ++ l2) := by
  have hc : scope1Contribution CarbonEstimator.init.EF_SCOPE1 (f, c) = 0 := by
    rcases h with h | h | h
    · simp [scope1Contribution, h]
    · subst h
      cases hL : lookupKV f CarbonEstimator.init.EF_SCOPE1 <;>
        simp [scope1Contribution, hL, PyVal.toFloat]
    · cases hL : lookupKV f CarbonEstimator.init.EF_SCOPE1 <;>
        simp [scope1Contribution, hL, h]
  simp [calc1_eq_sum, hc]

/-- Witness for C5: an unrecognized fuel between two valid entries leaves
the total unchanged. -/
theorem claim_C5_witness :
    (lookupKV "unknown_fuel" CarbonEstimator.init.EF_SCOPE1 = none ∨
      PyVal.num 5 = PyVal.null ∨ (PyVal.num 5).toFloat = none) ∧
    calculate_scope1_emissions
        ([("diesel", PyVal.num 10)] ++ ("unknown_fuel", PyVal.num 5) :: [("coal", PyVal.num 2)]) =
      calculate_scope1_emissions ([("diesel", PyVal.num 10)] ++ [("coal", PyVal.num 2)]) := by
  have h : lookupKV "unknown_fuel" CarbonEstimator.init.EF_SCOPE1 = none ∨
      PyVal.num 5 = PyVal.null ∨ (PyVal.num 5).toFloat = none :=
    Or.inl (by simp +decide [lookupKV, CarbonEstimator.init])
  exact ⟨h, claim_C5_bad_entries_are_skipped _ _ _ _ h⟩

/-- Claim C10: the scope-1 calculation is additive over the union of two
mappings with disjoint key sets (the union of two Python dicts with
disjoint keys concatenates their items in iteration order). -/
theorem claim_C10_scope1_additive_on_disjoint
    (l1 l2 : List (String × PyVal))
    (_h : ∀ k ∈ l1.map Prod.fst, k ∉ l2.map Prod.fst) :
    calculate_scope1_emissions (l1 ++ l2) =
      calculate_scope1_emissions l1 + calculate_scope1_emissions l2 := by
  simp [calc1_eq_sum]

/-- Witness for C10: two disjoint single-fuel mappings. -/
theorem claim_C10_witness :
    (∀ k ∈ [("diesel", PyVal.num 10)].map Prod.fst,
      k ∉ [("coal", PyVal.num 2)].map Prod.fst) ∧
    calculate_scope1_emissions ([("diesel", PyVal.num 10)] ++ [("coal", PyVal.num 2)]) =
      calculate_scope1_emissions [("diesel", PyVal.num 10)] +
        calculate_scope1_emissions [("coal", PyVal.num 2)] := by
  have h : ∀ k ∈ [("diesel", PyVal.num 10)].map Prod.fst,
      k ∉ [("coal", PyVal.num 2)].map Prod.fst := by simp +decide
  exact ⟨h, claim_C10_scope1_additive_on_disjoint _ _ h⟩

/-! ### The claims about the scope-2 calculator -/

lemma grid_lookup_empty_key :
    lookupKV "" CarbonEstimator.init.EF_GRID = (none : Option ℚ) := by
  simp +decide [lookupKV, CarbonEstimator.init]

/-- The scope-2 value as the amended claim C2 words it:
`(consumption_kwh / 1000) * grid_factor[region]` when `region` is a
recognized key of the grid factor table and `consumption_kwh` is
present, truthy and numerically coercible; a propagating `TypeError`
when both `consumption_kwh` and `region` are truthy but `region` is
unhashable (a JSON array or object); `0` in every other case. -/
def scope2Spec (electricity_data : List (String × PyVal)) : Except String ℚ :=
  let ck := (lookupKV "consumption_kwh" electricity_data).getD PyVal.null
  let rg := (lookupKV "region" electricity_data).getD PyVal.null
  if truthy ck && truthy rg && ! rg.hashable then
    Except.error (unhashableTypeMsg rg)
  else
    match rg with
    | PyVal.str s =>
      match lookupKV s CarbonEstimator.init.EF_GRID with
      | some gf =>
        if truthy ck then
          match ck.toFloat with
          | some q => Except.ok (q / 1000 * gf)
          | none => Except.ok 0
        else Except.ok 0
      | none => Except.ok 0
    | _ => Except.ok 0

/-- Claim C2 as stated is false on the code: with a truthy
`consumption_kwh` and a truthy unhashable `region` (here the JSON array
`["East"]`), the membership test `region not in self.EF_GRID` raises
`TypeError` — the function does not return 0 (or anything at all). -/
theorem claim_C2_counterexample :
    calculate_scope2_emissions
        [("consumption_kwh", PyVal.num 1), ("region", PyVal.list [PyVal.str "East"])] =
      Except.error "unhashable type: list" ∧
    calculate_scope2_emissions
        [("consumption_kwh", PyVal.num 1), ("region", PyVal.list [PyVal.str "East"])] ≠
      Except.ok 0 := by
  refine ⟨rfl, ?_⟩
  intro h
  rw [show calculate_scope2_emissions
      [("consumption_kwh", PyVal.num 1), ("region", PyVal.list [PyVal.str "East"])] =
      Except.error "unhashable type: list" from rfl] at h
  simp at h

/-- Claim C2 (amended): `calculate_scope2_emissions` returns
`(consumption_kwh / 1000) * grid_factor[region]` exactly when the region
is recognized and the consumption is present, truthy and coercible;
when both values are truthy but the region is unhashable the membership
test raises `TypeError`, which propagates; in every other case it
returns `0`. -/
theorem claim_C2_scope2_amended_case_analysis (electricity_data : List (String × PyVal)) :
    calculate_scope2_emissions electricity_data = scope2Spec electricity_data := by
  unfold calculate_scope2_emissions calculate_scope2_emissionsS scope2Spec
  generalize (lookupKV "consumption_kwh" electricity_data).getD PyVal.null = ck
  generalize (lookupKV "region" electricity_data).getD PyVal.null = rg
  cases rg with
  | str s =>
    cases hg : lookupKV s CarbonEstimator.init.EF_GRID with
    | none =>
      cases htc : truthy ck <;> cases hts : truthy (PyVal.str s) <;>
        simp [isGridKey, PyVal.hashable, hg, htc, hts]
    | some gf =>
      have hs : s ≠ "" := by
        intro hs0
        rw [hs0, grid_lookup_empty_key] at hg
        cases hg
      have htr : truthy (PyVal.str s) = true := by simp [truthy, hs]
      cases htc : truthy ck with
      | false => simp [isGridKey, PyVal.hashable, hg, htr, htc]
      | true =>
        cases htf : ck.toFloat with
        | none => simp [isGridKey, PyVal.hashable, hg, htr, htc, htf]
        | some q => simp [isGridKey, PyVal.hashable, gridFactorOf, hg, htr, htc, htf]
  | null => cases htc : truthy ck <;> simp [isGridKey, PyVal.hashable, truthy, htc]
  | bool b =>
    cases htc : truthy ck <;> cases b <;>
      simp [isGridKey, PyVal.hashable, truthy, htc]
  | num q =>
    cases htc : truthy ck <;> cases htr : truthy (PyVal.num q) <;>
      simp [isGridKey, PyVal.hashable, htc, htr]
  | list xs =>
    cases htc : truthy ck <;> cases htr : truthy (PyVal.list xs) <;>
      simp [isGridKey, PyVal.hashable, unhashableTypeMsg, htc, htr]
  | dict entries =>
    cases htc : truthy ck <;> cases htr : truthy (PyVal.dict entries) <;>
      simp [isGridKey, PyVal.hashable, unhashableTypeMsg, htc, htr]

/-! ### State threading: nothing ever writes to the estimator -/

lemma scope2S_state (st : CarbonEstimator) (ed : List (String × PyVal)) :
    (calculate_scope2_emissionsS st ed).2 = st := by
  unfold calculate_scope2_emissionsS
  dsimp only
  split
  · rfl
  · split
    · rfl
    · split
      · rfl
      · split <;> rfl

lemma scope1S_eq (st : CarbonEstimator) (fd : List (String × PyVal)) :
    calculate_scope1_emissionsS st fd =
      ((fd.map (scope1Contribution st.EF_SCOPE1)).sum, st) := by
  unfold calculate_scope1_emissionsS
  rw [scope1Loop_eq]
  simp

lemma estimateS_eq (st : CarbonEstimator) (fd ed : List (String × PyVal)) :
    estimate_total_emissionsS st fd ed =
      (match (calculate_scope2_emissionsS st ed).1 with
       | Except.error e => Except.error e
       | Except.ok v2 =>
         Except.ok ⟨round4 ((calculate_scope1_emissionsS st fd).1 + v2),
           round4 (calculate_scope1_emissionsS st fd).1, round4 v2⟩, st) := by
  unfold estimate_total_emissionsS
  cases h2 : (calculate_scope2_emissionsS st ed).1 with
  | error e => simp [scope1S_eq, scope2S_state, h2]
  | ok v2 => simp [scope1S_eq, scope2S_state, h2]

lemma estimateS_state (st : CarbonEstimator) (fd ed : List (String × PyVal)) :
    (estimate_total_emissionsS st fd ed).2 = st := by
  rw [estimateS_eq]

lemma roundHalfEven_one_half : roundHalfEven (1/2 : ℚ) = 0 := by
  have h : ⌊(1/2 : ℚ)⌋ = 0 := by
    rw [Int.floor_eq_iff]
    norm_num
  unfold roundHalfEven
  rw [h]
  norm_num

/-- Claim C3 as stated is false on the code: `estimate_total_emissions`
does not return the rounded triple for *every* pair of inputs — when the
electricity_data carries a truthy unhashable region the scope-2
membership test raises `TypeError`, which propagates out of the
estimator, so nothing is returned at this concrete input. -/
theorem claim_C3_counterexample :
    estimate_total_emissions []
        [("consumption_kwh", PyVal.num 1), ("region", PyVal.list [PyVal.str "East"])] =
      Except.error "unhashable type: list" ∧
    estimate_total_emissions []
        [("consumption_kwh", PyVal.num 1), ("region", PyVal.list [PyVal.str "East"])] ≠
      Except.ok ⟨0, 0, 0⟩ := by
  refine ⟨rfl, ?_⟩
  intro h
  rw [show estimate_total_emissions []
      [("consumption_kwh", PyVal.num 1), ("region", PyVal.list [PyVal.str "East"])] =
      Except.error "unhashable type: list" from rfl] at h
  simp at h

/-- Claim C3 (amended): whenever the scope-2 calculation returns (does
not raise), `estimate_total_emissions` returns the three fields with the
total computed from the unrounded scope values and each field rounded on
its own — at an input where the roundings interact, the total field is
visibly not the sum of the two rounded fields. -/
theorem claim_C3_amended_total_rounded_independently
    (fd ed : List (String × PyVal)) (v2 : ℚ)
    (h : calculate_scope2_emissions ed = Except.ok v2) :
    estimate_total_emissions fd ed =
      Except.ok ⟨round4 (calculate_scope1_emissions fd + v2),
        round4 (calculate_scope1_emissions fd), round4 v2⟩ ∧
    (estimate_total_emissions [("diesel", PyVal.num (1/61920))]
        [("consumption_kwh", PyVal.num (500/5703)), ("region", PyVal.str "East")] =
      Except.ok ⟨1/10000, 0, 0⟩ ∧ (1/10000 : ℚ) ≠ 0 + 0) := by
  constructor
  · unfold estimate_total_emissions
    rw [estimateS_eq]
    unfold calculate_scope2_emissions at h
    rw [h]
    simp [calculate_scope1_emissions]
  · have h1 : calculate_scope1_emissions [("diesel", PyVal.num (1/61920))] = 1/20000 := by
      simp +decide [calculate_scope1_emissions, calculate_scope1_emissionsS, scope1Loop,
        lookupKV, PyVal.toFloat, PyVal.isNull, CarbonEstimator.init]
      norm_num
    have h2 : (calculate_scope2_emissionsS CarbonEstimator.init
        [("consumption_kwh", PyVal.num (500/5703)), ("region", PyVal.str "East")]).1 =
          Except.ok (1/20000) := by
      simp +decide [calculate_scope2_emissionsS,
        lookupKV, truthy, isGridKey, gridFactorOf, PyVal.toFloat, CarbonEstimator.init]
      norm_num
    have hr0 : round4 (1/20000 : ℚ) = 0 := by
      unfold round4
      rw [show (1/20000 : ℚ) * 10000 = 1/2 by norm_num, roundHalfEven_one_half]
      norm_num
    have hrt : round4 ((1/20000 : ℚ) + 1/20000) = 1/10000 := by
      rw [round4_of_intCast _ 1 (by norm_num)]
      norm_num
    constructor
    · unfold estimate_total_emissions
      rw [estimateS_eq, h2]
      have h1S : (calculate_scope1_emissionsS CarbonEstimator.init
          [("diesel", PyVal.num (1/61920))]).1 = 1/20000 := h1
      simp only [h1S, hr0, hrt]
    · norm_num

/-- Witness for the amended C3 at empty inputs, where scope 2 returns 0
without raising. -/
theorem claim_C3_witness :
    calculate_scope2_emissions ([] : List (String × PyVal)) = Except.ok 0 ∧
    (estimate_total_emissions [] [] =
        Except.ok ⟨round4 (calculate_scope1_emissions [] + 0),
          round4 (calculate_scope1_emissions []), round4 0⟩ ∧
     (estimate_total_emissions [("diesel", PyVal.num (1/61920))]
        [("consumption_kwh", PyVal.num (500/5703)), ("region", PyVal.str "East")] =
      Except.ok ⟨1/10000, 0, 0⟩ ∧ (1/10000 : ℚ) ≠ 0 + 0)) :=
  ⟨rfl, claim_C3_amended_total_rounded_independently [] [] 0 rfl⟩

/-- Claim C6: on the spec's worked example the service returns
scope1 = 30.96, scope2 = 1.1406 and total = 32.1006. -/
theorem claim_C6_worked_example :
    estimate_total_emissions
      [("diesel", PyVal.num 10)]
      [("consumption_kwh", PyVal.num 2000), ("region", PyVal.str "East")] =
    Except.ok ⟨32.1006, 30.96, 1.1406⟩ := by
  simp +decide [estimate_total_emissions, estimate_total_emissionsS,
    calculate_scope1_emissionsS, scope1Loop, calculate_scope2_emissionsS,
    lookupKV, truthy, isGridKey, gridFactorOf, PyVal.toFloat, PyVal.isNull,
    CarbonEstimator.init, EstimationResult.mk.injEq, Except.ok.injEq]
  refine ⟨?_, ?_, ?_⟩
  · rw [round4_of_intCast _ 321006 (by norm_num)]; norm_num
  · rw [round4_of_intCast _ 309600 (by norm_num)]; norm_num
  · rw [round4_of_intCast _ 11406 (by norm_num)]; norm_num

/-- Claim C7: the estimator is deterministic — running
`estimate_total_emissions` a second time on the same inputs, from
whatever state the first run left behind, gives the identical result and
state; there is no hidden mutable state. -/
theorem claim_C7_deterministic (fd ed : List (String × PyVal)) :
    estimate_total_emissionsS
        (estimate_total_emissionsS CarbonEstimator.init fd ed).2 fd ed =
      estimate_total_emissionsS CarbonEstimator.init fd ed := by
  have h : (estimate_total_emissionsS CarbonEstimator.init fd ed).2 =
      CarbonEstimator.init := by rw [estimateS_eq]
  rw [h]

lemma handleS_state (st : CarbonEstimator) (r : HttpRequest) :
    (handle_estimationS st r).2 = st := by
  unfold handle_estimationS
  cases flaskGetJson r with
  | error e => rfl
  | ok d =>
    dsimp only
    split
    · rfl
    · cases d <;> try rfl
      case dict entries =>
        dsimp only
        split
        · split <;> simp [estimateS_state]
        · rfl

lemma negative_example_eval :
    estimate_total_emissions [("diesel", PyVal.num (-10))]
      [("consumption_kwh", PyVal.num (-2000)), ("region", PyVal.str "East")] =
    Except.ok ⟨-32.1006, -30.96, -1.1406⟩ := by
  simp +decide [estimate_total_emissions, estimate_total_emissionsS,
    calculate_scope1_emissionsS, scope1Loop, calculate_scope2_emissionsS,
    lookupKV, truthy, isGridKey, gridFactorOf, PyVal.toFloat, PyVal.isNull,
    CarbonEstimator.init, EstimationResult.mk.injEq, Except.ok.injEq]
  refine ⟨?_, ?_, ?_⟩
  · rw [round4_of_intCast _ (-321006) (by norm_num)]; norm_num
  · rw [round4_of_intCast _ (-309600) (by norm_num)]; norm_num
  · rw [round4_of_intCast _ (-11406) (by norm_num)]; norm_num

lemma scope1_factor_pos {f : String} {ef : ℚ}
    (h : lookupKV f CarbonEstimator.init.EF_SCOPE1 = some ef) : 0 < ef := by
  simp only [CarbonEstimator.init, lookupKV] at h
  repeat' split at h
  all_goals first
    | (injection h with h; rw [← h]; norm_num)
    | injection h

lemma grid_factor_pos {s : String} {gf : ℚ}
    (h : lookupKV s CarbonEstimator.init.EF_GRID = some gf) : 0 < gf := by
  simp only [CarbonEstimator.init, lookupKV] at h
  repeat' split at h
  all_goals first
    | (injection h with h; rw [← h]; norm_num)
    | injection h

/-- Claim C9: negative quantities are accepted: for a recognized fuel a
negative consumption gives a negative scope-1 value, for a recognized
region a negative consumption_kwh gives a negative scope-2 value
(quantity times positive factor — nothing rejects, clamps or zeroes the
sign), and on a concrete all-negative input all three output fields of
the estimator are negative. -/
theorem claim_C9_negative_inputs_accepted (f rgn : String) (ef gf q c : ℚ)
    (hf : lookupKV f CarbonEstimator.init.EF_SCOPE1 = some ef)
    (hg : lookupKV rgn CarbonEstimator.init.EF_GRID = some gf)
    (hq : q < 0) (hc : c < 0) :
    calculate_scope1_emissions [(f, PyVal.num q)] = q * ef ∧
    q * ef < 0 ∧
    calculate_scope2_emissions
        [("consumption_kwh", PyVal.num c), ("region", PyVal.str rgn)] =
      Except.ok (c / 1000 * gf) ∧
    c / 1000 * gf < 0 ∧
    estimate_total_emissions [("diesel", PyVal.num (-10))]
        [("consumption_kwh", PyVal.num (-2000)), ("region", PyVal.str "East")] =
      Except.ok ⟨-32.1006, -30.96, -1.1406⟩ ∧
    ((-32.1006 : ℚ) < 0 ∧ (-30.96 : ℚ) < 0 ∧ (-1.1406 : ℚ) < 0) := by
  have hef := scope1_factor_pos hf
  have hgf := grid_factor_pos hg
  have hs : rgn ≠ "" := by
    intro hs0
    rw [hs0, grid_lookup_empty_key] at hg
    cases hg
  refine ⟨?_, mul_neg_of_neg_of_pos hq hef, ?_,
    mul_neg_of_neg_of_pos (div_neg_of_neg_of_pos hc (by norm_num)) hgf,
    negative_example_eval, by norm_num⟩
  · rw [calc1_eq_sum]
    simp [scope1Contribution, hf, PyVal.toFloat]
  · unfold calculate_scope2_emissions calculate_scope2_emissionsS
    have htc : truthy (PyVal.num c) = true := by
      simp [truthy, bne_iff_ne, hc.ne]
    have hk1 : lookupKV "consumption_kwh"
        [("consumption_kwh", PyVal.num c), ("region", PyVal.str rgn)] =
          some (PyVal.num c) := by simp +decide [lookupKV]
    have hk2 : lookupKV "region"
        [("consumption_kwh", PyVal.num c), ("region", PyVal.str rgn)] =
          some (PyVal.str rgn) := by simp +decide [lookupKV]
    simp [hk1, hk2, truthy, isGridKey, gridFactorOf, hg, hs, PyVal.toFloat, htc, hc.ne]

/-- Witness for C9 at diesel with consumption −2 and East with
consumption_kwh −2000. -/
theorem claim_C9_witness :
    lookupKV "diesel" CarbonEstimator.init.EF_SCOPE1 = some 3.096 ∧
    lookupKV "East" CarbonEstimator.init.EF_GRID = some 0.5703 ∧
    ((-2 : ℚ) < 0) ∧ ((-2000 : ℚ) < 0) ∧
    (calculate_scope1_emissions [("diesel", PyVal.num (-2))] = -2 * 3.096 ∧
     (-2 : ℚ) * 3.096 < 0 ∧
     calculate_scope2_emissions
        [("consumption_kwh", PyVal.num (-2000)), ("region", PyVal.str "East")] =
          Except.ok (-2000 / 1000 * 0.5703) ∧
     (-2000 : ℚ) / 1000 * 0.5703 < 0 ∧
     estimate_total_emissions [("diesel", PyVal.num (-10))]
        [("consumption_kwh", PyVal.num (-2000)), ("region", PyVal.str "East")] =
       Except.ok ⟨-32.1006, -30.96, -1.1406⟩ ∧
     ((-32.1006 : ℚ) < 0 ∧ (-30.96 : ℚ) < 0 ∧ (-1.1406 : ℚ) < 0)) :=
  ⟨by simp +decide [lookupKV, CarbonEstimator.init],
   by simp +decide [lookupKV, CarbonEstimator.init],
   by norm_num, by norm_num,
   claim_C9_negative_inputs_accepted "diesel" "East" 3.096 0.5703 (-2) (-2000)
     (by simp +decide [lookupKV, CarbonEstimator.init])
     (by simp +decide [lookupKV, CarbonEstimator.init])
     (by norm_num) (by norm_num)⟩

/-- Claim C8: the two factor tables are loaded once by the constructor
and no operation — scope-1, scope-2, the total estimator, or the request
handler — ever changes the estimator's state (in particular the tables'
key sets and values) afterwards. -/
theorem claim_C8_tables_immutable (st : CarbonEstimator)
    (fd ed : List (String × PyVal)) (r : HttpRequest) :
    (calculate_scope1_emissionsS st fd).2 = st ∧
    (calculate_scope2_emissionsS st ed).2 = st ∧
    (estimate_total_emissionsS st fd ed).2 = st ∧
    (handle_estimationS st r).2 = st :=
  ⟨by rw [scope1S_eq], scope2S_state st ed, estimateS_state st fd ed, handleS_state st r⟩

/-! ### The request-handler claim -/

/-- Claim C4 as stated is false on the code: a POST whose body is the
unparseable JSON text consisting of a single opening brace is answered
with the server-error status 500 — `request.get_json()` raises
`BadRequest`, which the blanket `except Exception` converts into the 500
response — not with a client-error status; a request with no body at all
is likewise answered with 500. -/
theorem claim_C4_counterexample :
    parseJson "\x7b" = none ∧
    (handle_estimation ⟨some "\x7b"⟩).1 = 500 ∧
    ¬(handle_estimation ⟨some "\x7b"⟩).1 = 400 ∧
    (handle_estimation ⟨none⟩).1 = 500 := by
  refine ⟨rfl, rfl, ?_, rfl⟩
  intro h
  rw [show (handle_estimation ⟨some "\x7b"⟩).1 = 500 from rfl] at h
  cases h

/-- Claim C4 (amended): for every POST request to `/api/estimate` whose
JSON body is absent, empty, unparseable, or parses to a falsy value, the
handler responds with a structured payload with success=false and never
with a success envelope (status 200); the status is 400 exactly when
`get_json` returns a falsy parsed value, and 500 when JSON loading
raises (absent, empty or malformed body), because the blanket
`except Exception` turns the parse exception into a server error. -/
theorem claim_C4_amended_bad_body_never_succeeds (r : HttpRequest)
    (h : ∀ v, flaskGetJson r = Except.ok v → truthy v = false) :
    jsonField "success" (handle_estimation r).2 = some (PyVal.bool false) ∧
    ((handle_estimation r).1 = 400 ∨ (handle_estimation r).1 = 500) ∧
    ¬(handle_estimation r).1 = 200 ∧
    (∀ e, flaskGetJson r = Except.error e → (handle_estimation r).1 = 500) ∧
    (∀ v, flaskGetJson r = Except.ok v → (handle_estimation r).1 = 400) := by
  unfold handle_estimation handle_estimationS
  cases hj : flaskGetJson r with
  | error e =>
    refine ⟨by simp +decide [jsonField, lookupKV], Or.inr rfl, by simp, fun e2 h2 => rfl, ?_⟩
    intro v hv
    simp at hv
  | ok v =>
    have hv := h v hj
    refine ⟨?_, ?_, ?_, ?_, ?_⟩
    · simp +decide [hv, jsonField, lookupKV]
    · simp [hv]
    · simp [hv]
    · intro e2 h2
      simp at h2
    · intro v2 hv2
      simp [hv]

/-- Witness for the amended C4 at the empty-object body, which parses to
the falsy empty dict and is answered with 400. -/
theorem claim_C4_witness :
    (∀ v, flaskGetJson ⟨some "\x7b\x7d"⟩ = Except.ok v → truthy v = false) ∧
    (jsonField "success" (handle_estimation ⟨some "\x7b\x7d"⟩).2 = some (PyVal.bool false) ∧
     ((handle_estimation ⟨some "\x7b\x7d"⟩).1 = 400 ∨
       (handle_estimation ⟨some "\x7b\x7d"⟩).1 = 500) ∧
     ¬(handle_estimation ⟨some "\x7b\x7d"⟩).1 = 200 ∧
     (∀ e, flaskGetJson ⟨some "\x7b\x7d"⟩ = Except.error e →
       (handle_estimation ⟨some "\x7b\x7d"⟩).1 = 500) ∧
     (∀ v, flaskGetJson ⟨some "\x7b\x7d"⟩ = Except.ok v →
       (handle_estimation ⟨some "\x7b\x7d"⟩).1 = 400)) := by
  have h : ∀ v, flaskGetJson ⟨some "\x7b\x7d"⟩ = Except.ok v → truthy v = false := by
    intro v hv
    rw [show flaskGetJson ⟨some "\x7b\x7d"⟩ = Except.ok (PyVal.dict []) from rfl] at hv
    injection hv with hv
    rw [← hv]
    rfl
  exact ⟨h, claim_C4_amended_bad_body_never_succeeds ⟨some "\x7b\x7d"⟩ h⟩
